import Mathlib

/-!
Shallow embedding of the rehearsal-scheduler backend (Node/Express/Sequelize)
for verification of its optimal-rehearsal-time endpoint, availability
validation and band soft-deletion.

Conventions of the embedding:
* Timestamps are epoch milliseconds (`Int`), matching JavaScript
  `Date.getTime()`; durations are minutes (`Int`) as in the API.
* A body field that may be absent is `Option`; `none` is an absent (or, for
  date fields, absent-or-unparseable) value, `some v` a present valid value.
* Database rows and HTTP responses are plain inductive data; handlers are
  pure functions from their materialized inputs to a response (the source
  handlers perform no time/randomness reads once the ORM rows are fetched).
-/

namespace RehearsalScheduler

/-- A band member as fetched by `band.getMembers` in
`src/unnamed/part_003` (attributes id, firstName, lastName, email); the
engine is opaque to everything but identity, so we carry the identifier. -/
structure Member where
  id : Nat
deriving DecidableEq, Repr

/-- One suggested rehearsal slot, as built by the object literals at
`src/unnamed/part_003` lines 540-551: `startTime`/`endTime` epoch ms and
the two member lists. -/
structure SuggestedSlot where
  startTime : Int
  endTime : Int
  availableMembers : List Member
  unavailableMembers : List Member
deriving DecidableEq, Repr

/-- The `suggestedTimes` array literal of `findOptimalRehearsalTimes`
(`src/unnamed/part_003` lines 539-552):
slot 1 starts at `startDate`, ends `duration` minutes later, with
`members.slice(0, members.length - 1)` available and `members.slice(-1)`
unavailable; slot 2 starts 24 h after `startDate`, ends `duration` minutes
after that, with every member available and nobody unavailable.
`List.take (n-1)` and `List.drop (n-1)` agree with the two `slice` calls
for every length `n` (including `n = 0`, where both give `[]`). -/
def suggestedTimes (members : List Member) (startMs durationMin : Int) :
    List SuggestedSlot :=
  [ { startTime := startMs
      endTime := startMs + durationMin * 60000
      availableMembers := members.take (members.length - 1)
      unavailableMembers := members.drop (members.length - 1) },
    { startTime := startMs + 24 * 60 * 60000
      endTime := startMs + 24 * 60 * 60000 + durationMin * 60000
      availableMembers := members
      unavailableMembers := [] } ]

/-- An `Availability` table row as defined by the Sequelize model in
`src/server/src/models/rehearsal.js`: `dayOfWeek` 0-6, TIME-typed
`startTime`/`endTime` (modelled as minutes since midnight), `isRecurring`,
an `effectiveDate` and an optional `expiryDate` (epoch ms), a priority. -/
structure AvailabilityRecordRow where
  userId : Nat
  dayOfWeek : Int
  startTime : Int
  endTime : Int
  isRecurring : Bool
  effectiveDate : Int
  expiryDate : Option Int
  priority : Int
deriving DecidableEq, Repr

/-- The field validators of the Sequelize `Availability` model
(`src/server/src/models/rehearsal.js` lines 141-183): `dayOfWeek` between
0 and 6, `endTime` strictly after `startTime` (`isAfterStart` throws when
`value <= this.startTime`), and `expiryDate`, when set, strictly after
`effectiveDate` (`isAfterEffective` throws when `value <= effectiveDate`). -/
def availabilityRowValid (r : AvailabilityRecordRow) : Bool :=
  decide (0 ≤ r.dayOfWeek) && decide (r.dayOfWeek ≤ 6) &&
    decide (r.startTime < r.endTime) &&
    (match r.expiryDate with
     | none => true
     | some x => decide (r.effectiveDate < x))

/-- Response of the optimal-times endpoint: either an error status with a
message (`res.status(...).json({ message })`) or the 200 payload
`{ message, suggestedTimes }` of `src/unnamed/part_003` lines 554-557. -/
inductive HttpResponse where
  | error (status : Nat) (message : String)
  | okSlots (message : String) (suggestedTimes : List SuggestedSlot)
deriving DecidableEq, Repr

/-- Whether a response is an error (`res.status(4xx/5xx)`) as opposed to
the 200 `okSlots` payload. -/
def HttpResponse.isError : HttpResponse → Bool
  | .error _ _ => true
  | .okSlots _ _ => false

/-- Number of suggested slots carried by a response (0 for errors). -/
def HttpResponse.slotCount : HttpResponse → Nat
  | .error _ _ => 0
  | .okSlots _ ts => ts.length

/-- The request context of a band controller call, materialized from the
ORM lookups the handler performs: whether `Band.findByPk(id)` found the
band, whether `req.user.role === 'admin'`, whether `band.hasMember`
holds for the caller, and the rows of `band.getMembers()`. -/
structure BandCtx where
  bandExists : Bool
  callerIsAppAdmin : Bool
  callerIsBandMember : Bool
  members : List Member
deriving DecidableEq, Repr

/-- The JSON body of `POST /api/bands/:id/optimal-times`
(`src/server/src/routes/band.routes.js` lines 174-185): date fields are
`some` epoch-ms value when present and ISO-8601-parseable, `none`
otherwise; `duration` and `minimumMembers` are numeric when present. -/
structure OptimalTimesBody where
  startDate : Option Int
  endDate : Option Int
  duration : Option Int
  minimumMembers : Option Int
deriving DecidableEq, Repr

/-- JavaScript falsiness of an optional numeric body value, as tested by
`if (!startDate || !endDate || !duration)`: absent or zero. -/
def numFalsy : Option Int → Bool
  | none => true
  | some v => v == 0

/-- The `findOptimalRehearsalTimes` controller
(`src/unnamed/part_003` lines 501-562): 400 when `startDate`, `endDate`
or `duration` is falsy; 404 when the band does not exist; 403 when the
caller is neither app admin nor band member; otherwise the canned
`suggestedTimes` payload. The handler has the `Availability` table in
scope via the ORM but never queries it, so the `availability` argument
is unread; `endDate` and `minimumMembers` are likewise never read past
the falsiness check. -/
def findOptimalRehearsalTimes (ctx : BandCtx) (b : OptimalTimesBody)
    (availability : List AvailabilityRecordRow) : HttpResponse :=
  if b.startDate.isNone || b.endDate.isNone || numFalsy b.duration then
    .error 400
      "Start date, end date, and rehearsal duration (in minutes) are required"
  else if !ctx.bandExists then
    .error 404 "Band not found"
  else if !ctx.callerIsAppAdmin && !ctx.callerIsBandMember then
    .error 403 "You do not have access to this band"
  else
    .okSlots "Optimal rehearsal times found"
      (suggestedTimes ctx.members (b.startDate.getD 0) (b.duration.getD 0))

/-- The express-validator chain declared on `POST /:id/optimal-times`
(`src/server/src/routes/band.routes.js` lines 176-182): `startDate` and
`endDate` must be present ISO-8601 dates, `duration` an integer in
[30, 480], `minimumMembers` optional but at least 1 when present. -/
def optimalTimesValidatorPasses (b : OptimalTimesBody) : Bool :=
  b.startDate.isSome && b.endDate.isSome &&
    (match b.duration with
     | none => false
     | some d => decide (30 ≤ d) && decide (d ≤ 480)) &&
    (match b.minimumMembers with
     | none => true
     | some m => decide (1 ≤ m))

/-- Modelled from the spec: the `validate` middleware the route mounts
between the validator chain and the controller lives in
`src/server/src/middleware/validate`, which is absent from the source
tree; per the spec (§6, request fields "validated upstream") it rejects
the request with HTTP 400 when any declared validator failed and
otherwise forwards it unchanged to the controller. -/
def optimalTimesRoute (ctx : BandCtx) (b : OptimalTimesBody)
    (availability : List AvailabilityRecordRow) : HttpResponse :=
  if optimalTimesValidatorPasses b then
    findOptimalRehearsalTimes ctx b availability
  else
    .error 400 "Validation failed"

/-- The ordering the specification imposes on the returned candidate list
(spec §4.4): `availableMembers.size` descending, ties in member count
broken by `start` ascending. Written from the words of the spec, to be
compared with the order the code actually emits. -/
def SpecRankLE (a b : SuggestedSlot) : Prop :=
  b.availableMembers.length < a.availableMembers.length ∨
    (a.availableMembers.length = b.availableMembers.length ∧
      a.startTime ≤ b.startTime)

instance (a b : SuggestedSlot) : Decidable (SpecRankLE a b) := by
  unfold SpecRankLE
  infer_instance

/-- The `type` discriminator of availability creation requests
(`src/unnamed/part_001` line 89): `one-time` or `recurring`. -/
inductive AvailabilityKind where
  | oneTime
  | recurring
deriving DecidableEq, Repr

/-- The JSON body of `POST /api/availability`
(`src/unnamed/part_001` lines 86-132). `type` is `some` kind when the
field holds one of the two allowed strings, `none` otherwise; date
fields are `some` epoch-ms when present and ISO-8601-parseable; the
hour/minute fields are numeric when present. -/
structure AvailabilityBody where
  type : Option AvailabilityKind
  startTime : Option Int
  endTime : Option Int
  dayOfWeek : Option Int
  startHour : Option Int
  startMinute : Option Int
  endHour : Option Int
  endMinute : Option Int
  effectiveDate : Option Int
  expiryDate : Option Int
  note : Option String
deriving DecidableEq, Repr

/-- `isInt({ min, max })` on an optional body field: fails when the field
is absent (`none`), otherwise checks the bounds. -/
def optIntIn (v : Option Int) (lo hi : Int) : Bool :=
  match v with
  | none => false
  | some n => decide (lo ≤ n) && decide (n ≤ hi)

/-- The express-validator chain of `POST /api/availability`
(`src/unnamed/part_001` lines 89-128). One-time records require ISO
`startTime` and `endTime` with `endTime` strictly after `startTime`
(the custom check throws when `new Date(value) <= new Date(startTime)`);
recurring records require `dayOfWeek` in [0,6], hours in [0,23], minutes
in [0,59], an ISO `effectiveDate`, and — only when `expiryDate` is
present — `expiryDate` strictly after `effectiveDate`. No comparison is
declared between the recurring start and end times of day. Comparisons
against an absent date field compare with `NaN` in JavaScript and so do
not throw; the presence conjunct already fails in that case. -/
def availabilityCreatePasses (b : AvailabilityBody) : Bool :=
  (match b.type with
   | none => false
   | some .oneTime =>
       b.startTime.isSome &&
         (match b.endTime with
          | none => false
          | some e =>
              match b.startTime with
              | some s => decide (s < e)
              | none => true)
   | some .recurring =>
       optIntIn b.dayOfWeek 0 6 && optIntIn b.startHour 0 23 &&
         optIntIn b.startMinute 0 59 && optIntIn b.endHour 0 23 &&
         optIntIn b.endMinute 0 59 && b.effectiveDate.isSome &&
         (match b.expiryDate with
          | none => true
          | some x =>
              match b.effectiveDate with
              | some eff => decide (eff < x)
              | none => true)) &&
    (match b.note with
     | none => true
     | some s => decide (s.length ≤ 255))

/-- Outcome of `POST /api/availability`: the placeholder controller
(`src/unnamed/part_001` lines 18-23) answers 201 and echoes the body for
every request that clears the validator chain; failed validation yields
the 400 of the `validate` middleware. -/
inductive AvailabilityCreateResponse where
  | created (echo : AvailabilityBody)
  | validationFailed
deriving DecidableEq, Repr

/-- The full `POST /api/availability` pipeline: validator chain, then the
placeholder `createAvailability` controller, which accepts (201) without
ever constructing an `Availability` model row. -/
def createAvailabilityRoute (b : AvailabilityBody) : AvailabilityCreateResponse :=
  if availabilityCreatePasses b then .created b else .validationFailed

/-- Start time of day (minutes since midnight) of a recurring creation
request body. -/
def recurringStartMinutes (b : AvailabilityBody) : Int :=
  b.startHour.getD 0 * 60 + b.startMinute.getD 0

/-- End time of day (minutes since midnight) of a recurring creation
request body. -/
def recurringEndMinutes (b : AvailabilityBody) : Int :=
  b.endHour.getD 0 * 60 + b.endMinute.getD 0

/-- A recurring availability creation body whose end time of day (18:00)
is not after its start time of day (20:00); every other field satisfies
its declared validator. -/
def invertedRecurringBody : AvailabilityBody :=
  { type := some .recurring
    startTime := none
    endTime := none
    dayOfWeek := some 1
    startHour := some 20
    startMinute := some 0
    endHour := some 18
    endMinute := some 0
    effectiveDate := some 0
    expiryDate := none
    note := none }

/-- Role carried by the `UserBand` join table (`through: { role }`):
band admin or plain member. -/
inductive BandRole where
  | admin
  | member
deriving DecidableEq, Repr

/-- One `UserBand` join row of a band: member user id and band role. -/
structure BandMember where
  userId : Nat
  role : BandRole
deriving DecidableEq, Repr

/-- A `Bands` table row (`src/server/src/models/band.js` plus the fields
the controllers read/write), together with its `UserBand` join rows. -/
structure Band where
  id : Nat
  name : String
  description : Option String
  genre : Option String
  location : Option String
  contactEmail : Option String
  contactPhone : Option String
  logoUrl : Option String
  isActive : Bool
  members : List BandMember
deriving DecidableEq, Repr

/-- The authenticated caller (`req.user`): id and whether
`req.user.role === 'admin'`. -/
structure Caller where
  id : Nat
  isAppAdmin : Bool
deriving DecidableEq, Repr

/-- Modelled from the spec: `band.getMember(userId)` as called by the
band controllers — the ORM association helper behind it is not part of
the source tree, and spec §9 reads these membership/role checks as
queries over explicit join records `MemberRole{bandId, userId, role}`
"queried as plain relations". It returns the join rows of the given
user; the controllers inspect `membership[0]?.BandMember?.role`. -/
def getMember (band : Band) (uid : Nat) : List BandMember :=
  band.members.filter (fun m => m.userId == uid)

/-- Response shape of the band CRUD handlers: an error status with a
message, or a 200 `{ message }` success payload. -/
inductive BandApiResponse where
  | error (status : Nat) (message : String)
  | success (message : String)
deriving DecidableEq, Repr

/-- The `deleteBand` controller (`src/unnamed/part_003` lines 147-175)
acting on the bands table: 404 when `Band.findByPk(id)` finds nothing;
403 when the caller is neither app admin nor recorded as band admin in
the first of their join rows (in JavaScript `!membership` is false even
for an empty array, so only the `membership[0]?.BandMember?.role`
comparison decides); otherwise `band.update({ isActive: false })` —
an UPDATE of that primary key only — and a 200 success message. -/
def deleteBand (db : List Band) (bandId : Nat) (caller : Caller) :
    BandApiResponse × List Band :=
  match db.find? (fun b => b.id == bandId) with
  | none => (.error 404 "Band not found", db)
  | some band =>
    if !caller.isAppAdmin &&
        !(decide ((getMember band caller.id).head?.map BandMember.role =
          some BandRole.admin)) then
      (.error 403 "Only band admins can delete the band", db)
    else
      (.success "Band deactivated successfully",
        db.map (fun b =>
          if b.id == bandId then { b with isActive := false } else b))

/-- C1: for every slot returned by `findOptimalRehearsalTimes`, the
available and unavailable member lists concatenate back to exactly the
band roster (so their union is the roster), and when the roster has no
duplicate members the two lists are disjoint. -/
theorem suggestedTimes_partition (members : List Member)
    (hnd : members.Nodup) (s d : Int) (slot : SuggestedSlot)
    (hmem : slot ∈ suggestedTimes members s d) :
    slot.availableMembers ++ slot.unavailableMembers = members ∧
      slot.availableMembers.Disjoint slot.unavailableMembers := by
  simp only [suggestedTimes, List.mem_cons, List.not_mem_nil, or_false] at hmem
  rcases hmem with hmem | hmem
  · subst hmem
    refine ⟨List.take_append_drop _ _, ?_⟩
    have h : (members.take (members.length - 1) ++
        members.drop (members.length - 1)).Nodup := by
      rw [List.take_append_drop]
      exact hnd
    exact (List.nodup_append.mp h).2.2
  · subst hmem
    exact ⟨List.append_nil _, List.disjoint_nil_right _⟩

/-- Concrete check of `suggestedTimes_partition` on the two-member roster
`[0, 1]` at the first returned slot. -/
theorem suggestedTimes_partition_witness :
    (⟨0, 3600000, [⟨0⟩], [⟨1⟩]⟩ : SuggestedSlot).availableMembers ++
        (⟨0, 3600000, [⟨0⟩], [⟨1⟩]⟩ : SuggestedSlot).unavailableMembers =
        [⟨0⟩, ⟨1⟩] ∧
      (⟨0, 3600000, [⟨0⟩], [⟨1⟩]⟩ : SuggestedSlot).availableMembers.Disjoint
        (⟨0, 3600000, [⟨0⟩], [⟨1⟩]⟩ : SuggestedSlot).unavailableMembers :=
  suggestedTimes_partition [⟨0⟩, ⟨1⟩] (by decide) 0 60
    ⟨0, 3600000, [⟨0⟩], [⟨1⟩]⟩ (by decide)

/-- C5: every slot returned by `findOptimalRehearsalTimes` has
`endTime - startTime` equal to exactly the requested duration
(`duration * 60000` ms, i.e. `duration` minutes). -/
theorem suggestedTimes_duration_exact (members : List Member)
    (s d : Int) (slot : SuggestedSlot)
    (hmem : slot ∈ suggestedTimes members s d) :
    slot.endTime - slot.startTime = d * 60000 := by
  simp only [suggestedTimes, List.mem_cons, List.not_mem_nil, or_false] at hmem
  rcases hmem with hmem | hmem
  · subst hmem
    simp
  · subst hmem
    simp

/-- Concrete check of `suggestedTimes_duration_exact` on a one-member
roster with a 60-minute duration, at the second returned slot. -/
theorem suggestedTimes_duration_exact_witness :
    (⟨86400000, 90000000, [⟨5⟩], []⟩ : SuggestedSlot).endTime -
        (⟨86400000, 90000000, [⟨5⟩], []⟩ : SuggestedSlot).startTime =
      60 * 60000 :=
  suggestedTimes_duration_exact [⟨5⟩] 0 60
    ⟨86400000, 90000000, [⟨5⟩], []⟩ (by decide)

/-- C2 fails on the code: on the one-member roster `[0]` the placeholder
returns first a slot with 0 available members and then a slot with 1, so
the returned list is not sorted by `availableMembers` size descending
(with ties by start ascending), i.e. not `Pairwise SpecRankLE`. -/
theorem suggestedTimes_not_rank_sorted :
    ¬ (suggestedTimes [⟨0⟩] 0 60).Pairwise SpecRankLE := by
  decide

/-- C3 fails on the code: with a one-member roster and
`minimumMembers = 5 > 1`, the request clears the route validators and the
endpoint still answers with two suggested slots, not an empty list — the
controller never reads `minimumMembers`. -/
theorem optimalTimes_ignores_minimumMembers :
    HttpResponse.slotCount
        (optimalTimesRoute ⟨true, true, true, [⟨0⟩]⟩
          ⟨some 0, some 86400000, some 60, some 5⟩ []) = 2 := by
  decide

/-- C4 fails on the code in its "empty candidate list" half: for an empty
roster the endpoint does answer successfully (no error), but with the two
canned slots (each with empty member lists) rather than an empty list. -/
theorem optimalTimes_empty_roster_two_slots :
    (optimalTimesRoute ⟨true, true, true, []⟩
          ⟨some 0, some 86400000, some 60, none⟩ []).isError = false ∧
      HttpResponse.slotCount
          (optimalTimesRoute ⟨true, true, true, []⟩
            ⟨some 0, some 86400000, some 60, none⟩ []) = 2 := by
  decide

/-- C6 fails on the code: a query window with `endDate = startDate`
(epoch 0 = epoch 0, so `endDate <= startDate`) passes the route
validators — which only check ISO-8601 format, never compare the two
dates — and the controller answers 200 with the canned slots instead of
rejecting the call. -/
theorem optimalTimes_accepts_degenerate_window :
    optimalTimesRoute ⟨true, true, true, [⟨0⟩]⟩
        ⟨some 0, some 0, some 60, none⟩ [] =
      .okSlots "Optimal rehearsal times found" (suggestedTimes [⟨0⟩] 0 60) := by
  decide

/-- C7: the optimal-times endpoint is deterministic — two invocations
with identical band context (roster included), request body and
availability rows produce identical responses, order of the suggested
slots included. The embedded handler is a pure function of those inputs,
faithfully to the source, which performs no clock, randomness or further
I/O reads once the ORM rows are materialized. -/
theorem findOptimalRehearsalTimes_deterministic (ctx ctx' : BandCtx)
    (b b' : OptimalTimesBody) (av av' : List AvailabilityRecordRow)
    (hctx : ctx = ctx') (hb : b = b') (hav : av = av') :
    optimalTimesRoute ctx b av = optimalTimesRoute ctx' b' av' := by
  subst hctx
  subst hb
  subst hav
  rfl

/-- Concrete check of `findOptimalRehearsalTimes_deterministic` on a
one-member roster. -/
theorem findOptimalRehearsalTimes_deterministic_witness :
    optimalTimesRoute ⟨true, true, true, [⟨0⟩]⟩
        ⟨some 0, some 86400000, some 60, none⟩ [] =
      optimalTimesRoute ⟨true, true, true, [⟨0⟩]⟩
        ⟨some 0, some 86400000, some 60, none⟩ [] :=
  findOptimalRehearsalTimes_deterministic _ _ _ _ _ _ rfl rfl rfl

/-- C8 fails on the code: the recurring creation body with start 20:00
and end 18:00 clears the whole `POST /api/availability` pipeline and is
accepted with 201 — the validator chain never compares the recurring
start and end times of day, and the placeholder controller never
constructs a model row — even though its end time of day is not after
its start, and the Sequelize `Availability` model validator itself
rejects the corresponding row (20:00 = minute 1200, 18:00 = minute 1080). -/
theorem availabilityCreate_accepts_inverted_recurring :
    createAvailabilityRoute invertedRecurringBody =
        .created invertedRecurringBody ∧
      recurringEndMinutes invertedRecurringBody ≤
        recurringStartMinutes invertedRecurringBody ∧
      availabilityRowValid ⟨9, 1, 1200, 1080, true, 0, none, 1⟩ = false := by
  decide

/-- C9: whenever the controller's own input checks pass — the band
exists, the caller is app admin or band member, and `startDate`,
`endDate`, `duration` are present (with `duration` non-zero, i.e.
truthy) — the response is exactly two slots whose contents are built
from `startDate` (`s`), `duration` (`d`) and the roster alone: the right
hand side mentions neither `endDate`, nor `minimumMembers`, nor the
`availability` rows. The first slot starts at `startDate` with every
roster member but the last available and the last unavailable; the
second starts 24 hours after `startDate` with the whole roster available
and nobody unavailable. -/
theorem findOptimalRehearsalTimes_placeholder_shape (ctx : BandCtx)
    (b : OptimalTimesBody) (availability : List AvailabilityRecordRow)
    (s e d : Int) (hband : ctx.bandExists = true)
    (hacc : ctx.callerIsAppAdmin = true ∨ ctx.callerIsBandMember = true)
    (hs : b.startDate = some s) (he : b.endDate = some e)
    (hd : b.duration = some d) (hd0 : d ≠ 0) :
    findOptimalRehearsalTimes ctx b availability =
      .okSlots "Optimal rehearsal times found"
        [ { startTime := s
            endTime := s + d * 60000
            availableMembers := ctx.members.take (ctx.members.length - 1)
            unavailableMembers := ctx.members.drop (ctx.members.length - 1) },
          { startTime := s + 24 * 60 * 60000
            endTime := s + 24 * 60 * 60000 + d * 60000
            availableMembers := ctx.members
            unavailableMembers := [] } ] := by
  unfold findOptimalRehearsalTimes
  rw [hs, he, hd]
  rcases hacc with h | h <;>
    simp [numFalsy, hband, h, hd0, suggestedTimes]

/-- Concrete check of `findOptimalRehearsalTimes_placeholder_shape` on a
two-member roster for a band-member (non-admin) caller. -/
theorem findOptimalRehearsalTimes_placeholder_shape_witness :
    findOptimalRehearsalTimes ⟨true, false, true, [⟨0⟩, ⟨1⟩]⟩
        ⟨some 0, some 86400000, some 60, none⟩ [] =
      .okSlots "Optimal rehearsal times found"
        [ ⟨0, 3600000, [⟨0⟩], [⟨1⟩]⟩,
          ⟨86400000, 90000000, [⟨0⟩, ⟨1⟩], []⟩ ] := by
  have h := findOptimalRehearsalTimes_placeholder_shape
    ⟨true, false, true, [⟨0⟩, ⟨1⟩]⟩ ⟨some 0, some 86400000, some 60, none⟩
    [] 0 86400000 60 rfl (Or.inr rfl) rfl rfl rfl (by decide)
  exact h.trans (by decide)

/-- C10: `deleteBand` on an existing band with an authorized caller
(app admin, or band admin per the first membership join row) answers the
success message and soft-deletes: the resulting table has the same
length, and row for row every field — name, description, genre,
location, contact email and phone, logo, members — is unchanged, while
`isActive` becomes `false` exactly on rows carrying the deleted band's
id and is untouched elsewhere. No row is removed. -/
theorem deleteBand_soft_delete (db : List Band) (bandId : Nat)
    (caller : Caller) (band : Band)
    (hfound : db.find? (fun b => b.id == bandId) = some band)
    (hauth : caller.isAppAdmin = true ∨
      (getMember band caller.id).head?.map BandMember.role =
        some BandRole.admin) :
    (deleteBand db bandId caller).1 =
        .success "Band deactivated successfully" ∧
      (deleteBand db bandId caller).2.length = db.length ∧
      List.Forall₂ (fun b b' : Band =>
          b'.id = b.id ∧ b'.name = b.name ∧
            b'.description = b.description ∧ b'.genre = b.genre ∧
            b'.location = b.location ∧ b'.contactEmail = b.contactEmail ∧
            b'.contactPhone = b.contactPhone ∧ b'.logoUrl = b.logoUrl ∧
            b'.members = b.members ∧
            b'.isActive = (if b.id = bandId then false else b.isActive))
        db (deleteBand db bandId caller).2 := by
  have hcond : (!caller.isAppAdmin &&
      !(decide ((getMember band caller.id).head?.map BandMember.role =
        some BandRole.admin))) = false := by
    rcases hauth with h | h <;> simp [h]
  have hres : deleteBand db bandId caller =
      (.success "Band deactivated successfully",
        db.map (fun b =>
          if b.id == bandId then { b with isActive := false } else b)) := by
    unfold deleteBand
    rw [hfound]
    simp only [hcond, Bool.false_eq_true, if_false]
  rw [hres]
  refine ⟨rfl, by simp, ?_⟩
  rw [List.forall₂_map_right_iff]
  rw [List.forall₂_same]
  intro x _
  by_cases hx : x.id = bandId <;> simp [hx]

/-- Concrete check of `deleteBand_soft_delete` on a one-row bands table
with an app-admin caller. -/
theorem deleteBand_soft_delete_witness :
    (deleteBand [⟨1, "The Sharps", none, none, none, none, none, none,
          true, [⟨7, .member⟩]⟩] 1 ⟨9, true⟩).1 =
        .success "Band deactivated successfully" ∧
      (deleteBand [⟨1, "The Sharps", none, none, none, none, none, none,
          true, [⟨7, .member⟩]⟩] 1 ⟨9, true⟩).2.length =
        [(⟨1, "The Sharps", none, none, none, none, none, none,
          true, [⟨7, .member⟩]⟩ : Band)].length ∧
      List.Forall₂ (fun b b' : Band =>
          b'.id = b.id ∧ b'.name = b.name ∧
            b'.description = b.description ∧ b'.genre = b.genre ∧
            b'.location = b.location ∧ b'.contactEmail = b.contactEmail ∧
            b'.contactPhone = b.contactPhone ∧ b'.logoUrl = b.logoUrl ∧
            b'.members = b.members ∧
            b'.isActive = (if b.id = 1 then false else b.isActive))
        [⟨1, "The Sharps", none, none, none, none, none, none,
          true, [⟨7, .member⟩]⟩]
        (deleteBand [⟨1, "The Sharps", none, none, none, none, none, none,
          true, [⟨7, .member⟩]⟩] 1 ⟨9, true⟩).2 :=
  deleteBand_soft_delete
    [⟨1, "The Sharps", none, none, none, none, none, none,
      true, [⟨7, .member⟩]⟩] 1 ⟨9, true⟩
    ⟨1, "The Sharps", none, none, none, none, none, none,
      true, [⟨7, .member⟩]⟩ rfl (Or.inl rfl)

end RehearsalScheduler
